import Mathlib

/-!
Verification development for the Smart-Notes elaboration backend.

The JavaScript sources are embedded shallowly:
* JS runtime values that matter to the code's truthiness/typeof checks are
  modelled by `JSVal` (numbers as rationals — finite, NaN-free).
* Timestamps are modelled as epoch milliseconds (`Int`); ISO rendering of
  dates is abstracted to the underlying millisecond value.
* Asynchronous external calls (OpenAI, Serper, the database) are modelled by
  passing their outcomes in explicitly and recording which calls and which
  database writes a request performs.
-/

set_option maxRecDepth 100000
set_option linter.unusedVariables false

/-- Decidable equality for `Except` (not derived in this toolchain). -/
instance exceptDecEq {e a : Type} [DecidableEq e] [DecidableEq a] :
    DecidableEq (Except e a) := fun x y =>
  match x, y with
  | .ok v, .ok w =>
      if h : v = w then isTrue (by rw [h]) else isFalse (by intro hh; cases hh; exact h rfl)
  | .error v, .error w =>
      if h : v = w then isTrue (by rw [h]) else isFalse (by intro hh; cases hh; exact h rfl)
  | .ok _, .error _ => isFalse (by intro hh; cases hh)
  | .error _, .ok _ => isFalse (by intro hh; cases hh)

/-- Model of the JavaScript values the embedded code inspects with
truthiness / `typeof` checks.  Numbers are rationals (finite values only). -/
inductive JSVal where
  | vnull
  | vundef
  | vbool (b : Bool)
  | vnum (q : ℚ)
  | vstr (s : String)
  deriving DecidableEq, Repr

/-! ## SHA-256 (Node `crypto.createHash('sha256')`), over UTF-8 bytes -/

/-- UTF-8 encoding of one character, as byte values. -/
def utf8Bytes (c : Char) : List Nat :=
  let n := c.toNat
  if n < 128 then [n]
  else if n < 2048 then [192 + n / 64, 128 + n % 64]
  else if n < 65536 then [224 + n / 4096, 128 + (n / 64) % 64, 128 + n % 64]
  else [240 + n / 262144, 128 + (n / 4096) % 64, 128 + (n / 64) % 64, 128 + n % 64]

/-- UTF-8 bytes of a string. -/
def strBytes (s : String) : List Nat := s.toList.flatMap utf8Bytes

/-- Truncate to a 32-bit word. -/
def w32 (n : Nat) : Nat := n % 4294967296

/-- Right rotation of a 32-bit word (input assumed `< 2^32`). -/
def rotr (k w : Nat) : Nat := w / 2 ^ k + w % 2 ^ k * 2 ^ (32 - k)

/-- Logical right shift. -/
def shr (k w : Nat) : Nat := w / 2 ^ k

/-- Bitwise complement within 32 bits (input assumed `< 2^32`). -/
def bnot32 (w : Nat) : Nat := 4294967295 - w

def shaCh (x y z : Nat) : Nat := (x &&& y) ^^^ (bnot32 x &&& z)

def shaMaj (x y z : Nat) : Nat := (x &&& y) ^^^ (x &&& z) ^^^ (y &&& z)

def bsig0 (x : Nat) : Nat := rotr 2 x ^^^ rotr 13 x ^^^ rotr 22 x

def bsig1 (x : Nat) : Nat := rotr 6 x ^^^ rotr 11 x ^^^ rotr 25 x

def ssig0 (x : Nat) : Nat := rotr 7 x ^^^ rotr 18 x ^^^ shr 3 x

def ssig1 (x : Nat) : Nat := rotr 17 x ^^^ rotr 19 x ^^^ shr 10 x

/-- Big-endian byte representation of `n` in exactly `k` bytes. -/
def beBytes : Nat → Nat → List Nat
  | 0, _ => []
  | k + 1, n => beBytes k (n / 256) ++ [n % 256]

/-- SHA-256 message padding. -/
def padBytes (msg : List Nat) : List Nat :=
  let L := msg.length
  let z := (120 - (L + 1) % 64) % 64
  msg ++ [128] ++ List.replicate z 0 ++ beBytes 8 (8 * L)

/-- Group bytes into 32-bit big-endian words. -/
def toWords : List Nat → List Nat
  | a :: b :: c :: d :: rest => (((a * 256 + b) * 256 + c) * 256 + d) :: toWords rest
  | _ => []

/-- Split a byte list into 64-byte blocks. -/
def chunk64 : List Nat → List (List Nat)
  | [] => []
  | x :: rest => ((x :: rest).take 64) :: chunk64 ((x :: rest).drop 64)
termination_by l => l.length
decreasing_by simp_all [List.drop]; omega

/-- One step of the SHA-256 message-schedule extension. -/
def scheduleStep (w : List Nat) : List Nat :=
  w ++ [w32 (ssig1 (w.getD (w.length - 2) 0) + w.getD (w.length - 7) 0
      + ssig0 (w.getD (w.length - 15) 0) + w.getD (w.length - 16) 0)]

/-- Extend the 16 block words to the 64 schedule words. -/
def schedule (w : List Nat) : List Nat := scheduleStep^[48] w

/-- SHA-256 round constants. -/
def K256 : List Nat :=
  [1116352408, 1899447441, 3049323471, 3921009573, 961987163,
   1508970993, 2453635748, 2870763221, 3624381080, 310598401,
   607225278, 1426881987, 1925078388, 2162078206, 2614888103,
   3248222580, 3835390401, 4022224774, 264347078, 604807628,
   770255983, 1249150122, 1555081692, 1996064986, 2554220882,
   2821834349, 2952996808, 3210313671, 3336571891, 3584528711,
   113926993, 338241895, 666307205, 773529912, 1294757372,
   1396182291, 1695183700, 1986661051, 2177026350, 2456956037,
   2730485921, 2820302411, 3259730800, 3345764771, 3516065817,
   3600352804, 4094571909, 275423344, 430227734, 506948616,
   659060556, 883997877, 958139571, 1322822218, 1537002063,
   1747873779, 1955562222, 2024104815, 2227730452, 2361852424,
   2428436474, 2756734187, 3204031479, 3329325298]

structure Hstate where
  a : Nat
  b : Nat
  c : Nat
  d : Nat
  e : Nat
  f : Nat
  g : Nat
  h : Nat
  deriving Repr

/-- Initial SHA-256 hash state. -/
def H0state : Hstate :=
  ⟨1779033703, 3144134277, 1013904242, 2773480762,
   1359893119, 2600822924, 528734635, 1541459225⟩

/-- One SHA-256 compression round. -/
def compressRound (s : Hstate) (kw : Nat × Nat) : Hstate :=
  let t1 := w32 (s.h + bsig1 s.e + shaCh s.e s.f s.g + kw.1 + kw.2)
  let t2 := w32 (bsig0 s.a + shaMaj s.a s.b s.c)
  ⟨w32 (t1 + t2), s.a, s.b, s.c, w32 (s.d + t1), s.e, s.f, s.g⟩

/-- Compress one 64-byte block into the running state. -/
def compressBlock (h : Hstate) (block : List Nat) : Hstate :=
  let ws := schedule (toWords block)
  let s := (K256.zip ws).foldl compressRound h
  ⟨w32 (h.a + s.a), w32 (h.b + s.b), w32 (h.c + s.c), w32 (h.d + s.d),
   w32 (h.e + s.e), w32 (h.f + s.f), w32 (h.g + s.g), w32 (h.h + s.h)⟩

/-- SHA-256 digest of a byte message, as eight 32-bit words. -/
def sha256Words (msg : List Nat) : List Nat :=
  let f := (chunk64 (padBytes msg)).foldl compressBlock H0state
  [f.a, f.b, f.c, f.d, f.e, f.f, f.g, f.h]

def hexDigits : List Char := "0123456789abcdef".data

/-- Lowercase hex digit for a nibble. -/
def hexDigit (n : Nat) : Char := hexDigits.getD (n % 16) '0'

/-- The eight hex characters of one 32-bit word (big-endian nibbles). -/
def wordHexChars (w : Nat) : List Char :=
  [hexDigit (w / 2 ^ 28), hexDigit (w / 2 ^ 24), hexDigit (w / 2 ^ 20), hexDigit (w / 2 ^ 16),
   hexDigit (w / 2 ^ 12), hexDigit (w / 2 ^ 8), hexDigit (w / 2 ^ 4), hexDigit w]

/-- Hex-encoded SHA-256 digest of a string (UTF-8), as Node's
`createHash('sha256').update(s).digest('hex')`. -/
def sha256Hex (s : String) : String :=
  ⟨((sha256Words (strBytes s)).map wordHexChars).flatten⟩

/-- JS `\s` (the ASCII part; the Unicode spaces never occur in our inputs). -/
def jsSpace (c : Char) : Bool :=
  c = ' ' || c = '\t' || c = '\n' || c = '\r' || c = '\x0b' || c = '\x0c'

/-- JS `String.prototype.trim` (drop whitespace from both ends). -/
def jsTrim (s : String) : String :=
  ⟨((s.data.dropWhile jsSpace).reverse.dropWhile jsSpace).reverse⟩

/-! ## `src/utils/hash.js` -/

/-- `generateHash(content)`: empty string for falsy or non-string input,
otherwise the SHA-256 hex digest of the trimmed content. -/
def generateHash : JSVal → String
  | .vstr s => if s = "" then "" else sha256Hex (jsTrim s)
  | _ => ""

/-- `generateHash` applied to a (possibly empty) string value, as the
elaborate route does with `note.bodyMd`. -/
def generateHashStr (s : String) : String := generateHash (.vstr s)

/-- `isCacheValid(cachedAt, ttlHours)`: false for a missing timestamp,
otherwise the age in hours must be strictly below the TTL.
`(now - t) / 3600000 < ttl` is equivalent to `now - t < ttl * 3600000`. -/
def isCacheValid (cachedAt : Option Int) (ttlHours : Int) (now : Int) : Bool :=
  match cachedAt with
  | none => false
  | some t => decide (now - t < ttlHours * 3600000)


/-! ## Regex engine for the PII patterns (JS backtracking semantics)

The six patterns in `redactPII` use only greedily-quantified character
classes, `\b` word-boundary assertions, one optional group and one two-way
alternation, so they are embedded as sequences of `RItem` and matched with a
backtracking matcher that mirrors the JS engine: candidate lengths for a
quantifier are tried longest-first, an optional group is tried present-first,
alternation is tried left-branch-first, and `replace(.../g)` scans the
original string left to right, restarting after each match. -/

/-- JS `\w` word characters (`[A-Za-z0-9_]`). -/
def isWordChar (c : Char) : Bool :=
  ('a' ≤ c && c ≤ 'z') || ('A' ≤ c && c ≤ 'Z') || ('0' ≤ c && c ≤ '9') || c = '_'

/-- Items of a straight-line regex alternative: a greedily quantified
character class `p{lo,hi}` (`hi = none` means unbounded) or a `\\b` word
boundary.  A whole pattern is an ordered list of such alternatives
(`List (List SItem)`): the one optional group `(...)?` and the one
alternation `(a|b)` occurring in the six PII patterns are expanded into
their ordered variants — group-present before group-absent and left branch
before right branch, exactly the JS backtracking preference order. -/
inductive SItem where
  | cls (p : Char → Bool) (lo : Nat) (hi : Option Nat)
  | wb

/-- Length of the maximal prefix of `s` whose characters satisfy `p`. -/
def munch (p : Char → Bool) : List Char → Nat
  | [] => 0
  | c :: rest => if p c then munch p rest + 1 else 0

/-- `\b`: the previous and next characters disagree on wordness
(string edges count as non-word). -/
def isBoundary (prev next : Option Char) : Bool :=
  (match prev with | some c => isWordChar c | none => false)
    != (match next with | some c => isWordChar c | none => false)

/-- Candidate lengths for a quantifier, greedily ordered `[m, m-1, ..., lo]`. -/
def descRange (lo m : Nat) : List Nat := (List.range' lo (m - lo + 1)).reverse

/-- Backtracking matcher for one straight-line alternative at the head of
`s` (`prev` is the character just before `s`, for `\b`); returns the number
of characters consumed by the first successful expansion, trying quantifier
lengths longest-first as the JS engine does. -/
def matchStraight : List SItem → Option Char → List Char → Option Nat
  | [], _, _ => some 0
  | .wb :: rest, prev, s =>
      if isBoundary prev s.head? then matchStraight rest prev s else none
  | .cls p lo hi :: rest, prev, s =>
      let k := munch p s
      let m := min k (hi.getD k)
      if lo ≤ m then
        (descRange lo m).findSome? (fun n =>
          (matchStraight rest (if n = 0 then prev else s[n - 1]?) (s.drop n)).map (n + ·))
      else none

/-- Match a pattern (ordered alternatives) at the head of `s`. -/
def matchAlts (alts : List (List SItem)) (prev : Option Char) (s : List Char) : Option Nat :=
  alts.findSome? (fun items => matchStraight items prev s)

/-- `String.prototype.replace` with a `/g` regex, structurally recursive on a
fuel that `scanReplaceF_stable` shows is semantically inert (the scan
consumes at least one character per step, so fuel `s.length` is enough).
Scans the original characters left to right, emitting the replacement token
for each match; a zero-length match emits the token and advances one
character, as JS does. -/
def scanReplaceF : Nat → List (List SItem) → List Char → Option Char → List Char → List Char
  | 0, _, _, _, s => s
  | f + 1, pat, token, prev, s =>
    match s with
    | [] => []
    | c :: rest =>
      match matchAlts pat prev (c :: rest) with
      | some n =>
          if n = 0 then token ++ c :: scanReplaceF f pat token (some c) rest
          else token ++ scanReplaceF f pat token ((c :: rest)[n - 1]?) ((c :: rest).drop n)
      | none => c :: scanReplaceF f pat token (some c) rest

/-- One `text.replace(pattern, token)` pass. -/
def replaceAll (pat : List (List SItem)) (token : String) (s : String) : String :=
  ⟨scanReplaceF s.data.length pat token.data none s.data⟩

def digitC (c : Char) : Bool := '0' ≤ c && c ≤ '9'

def alnumC (c : Char) : Bool :=
  ('a' ≤ c && c ≤ 'z') || ('A' ≤ c && c ≤ 'Z') || digitC c

/-- Single literal character class. -/
def chC (x : Char) : Char → Bool := fun c => c = x

/-- `[-.\s]` used between phone digit groups. -/
def sepC (c : Char) : Bool := c = '-' || c = '.' || jsSpace c

/-- `[\s-]` used between card digit groups. -/
def cardSepC (c : Char) : Bool := jsSpace c || c = '-'

/-- `[A-Za-z0-9._%+-]` (email local part). -/
def emailLocalC (c : Char) : Bool :=
  alnumC c || c = '.' || c = '_' || c = '%' || c = '+' || c = '-'

/-- `[A-Za-z0-9.-]` (email domain). -/
def emailDomC (c : Char) : Bool := alnumC c || c = '.' || c = '-'

/-- `[A-Z|a-z]` (email TLD; the source class literally contains the bar). -/
def tldC (c : Char) : Bool := ('A' ≤ c && c ≤ 'Z') || ('a' ≤ c && c ≤ 'z') || c = '|'

/-- `\b[A-Za-z0-9._%+-]+@[A-Za-z0-9.-]+\.[A-Z|a-z]{2,}\b` -/
def emailPat : List (List SItem) :=
  [[.wb, .cls emailLocalC 1 none, .cls (chC '@') 1 (some 1), .cls emailDomC 1 none,
    .cls (chC '.') 1 (some 1), .cls tldC 2 none, .wb]]

/-- `(\+\d{1,3}[-.\s]?)?\(?\d{3}\)?[-.\s]?\d{3}[-.\s]?\d{4}` — the optional
leading group is expanded into its two variants, group-present first. -/
def phonePat : List (List SItem) :=
  [[.cls (chC '+') 1 (some 1), .cls digitC 1 (some 3), .cls sepC 0 (some 1),
    .cls (chC '(') 0 (some 1), .cls digitC 3 (some 3), .cls (chC ')') 0 (some 1),
    .cls sepC 0 (some 1), .cls digitC 3 (some 3), .cls sepC 0 (some 1), .cls digitC 4 (some 4)],
   [.cls (chC '(') 0 (some 1), .cls digitC 3 (some 3), .cls (chC ')') 0 (some 1),
    .cls sepC 0 (some 1), .cls digitC 3 (some 3), .cls sepC 0 (some 1), .cls digitC 4 (some 4)]]

/-- `\b\d{3}-\d{2}-\d{4}\b` -/
def ssnPat : List (List SItem) :=
  [[.wb, .cls digitC 3 (some 3), .cls (chC '-') 1 (some 1), .cls digitC 2 (some 2),
    .cls (chC '-') 1 (some 1), .cls digitC 4 (some 4), .wb]]

/-- `\b\d{4}[\s-]?\d{4}[\s-]?\d{4}[\s-]?\d{4,7}\b` -/
def cardPat : List (List SItem) :=
  [[.wb, .cls digitC 4 (some 4), .cls cardSepC 0 (some 1), .cls digitC 4 (some 4),
    .cls cardSepC 0 (some 1), .cls digitC 4 (some 4), .cls cardSepC 0 (some 1),
    .cls digitC 4 (some 7), .wb]]

/-- `\b(?:\d{1,3}\.){3}\d{1,3}\b` (the `{3}` repetition unrolled) -/
def ipPat : List (List SItem) :=
  [[.wb, .cls digitC 1 (some 3), .cls (chC '.') 1 (some 1), .cls digitC 1 (some 3),
    .cls (chC '.') 1 (some 1), .cls digitC 1 (some 3), .cls (chC '.') 1 (some 1),
    .cls digitC 1 (some 3), .wb]]

/-- `\b(sk-[a-zA-Z0-9]{20,}|pk_[a-zA-Z0-9]{20,})\b` — the alternation is
expanded into its two variants, left branch first. -/
def apiPat : List (List SItem) :=
  [[.wb, .cls (chC 's') 1 (some 1), .cls (chC 'k') 1 (some 1), .cls (chC '-') 1 (some 1),
    .cls alnumC 20 none, .wb],
   [.wb, .cls (chC 'p') 1 (some 1), .cls (chC 'k') 1 (some 1), .cls (chC '_') 1 (some 1),
    .cls alnumC 20 none, .wb]]

/-- `redactPII(text)` from `src/services/openai.js`: the six replacement
passes, in source order (email, phone, SSN, card, IP, API key).  The JS
function returns non-string input unchanged; on strings it is this pipeline. -/
def redactPII (text : String) : String :=
  let r1 := replaceAll emailPat "[EMAIL_REDACTED]" text
  let r2 := replaceAll phonePat "[PHONE_REDACTED]" r1
  let r3 := replaceAll ssnPat "[SSN_REDACTED]" r2
  let r4 := replaceAll cardPat "[CARD_REDACTED]" r3
  let r5 := replaceAll ipPat "[IP_REDACTED]" r4
  replaceAll apiPat "[API_KEY_REDACTED]" r5

/-! ## Shared JS helpers -/

/-- Is an environment variable set and truthy (`!process.env.X` is false)? -/
def envSet : Option String → Bool
  | some s => s != ""
  | none => false

/-- `!v || typeof v !== 'string'` is false, i.e. `v` is a non-empty string. -/
def jsTruthyStr : JSVal → Bool
  | .vstr s => s != ""
  | _ => false

/-- The string payload of a `JSVal` (used only under `jsTruthyStr` guards). -/
def jsStrVal : JSVal → String
  | .vstr s => s
  | _ => ""

/-- `a || b` for an optional string `a` (JS falsy: absent or empty). -/
def jsOrStr (a : Option String) (b : String) : String :=
  match a with
  | some s => if s = "" then b else s
  | none => b

/-- `Array.prototype.join(sep)`. -/
def joinSep (sep : String) : List String → String
  | [] => ""
  | [x] => x
  | x :: y :: xs => x ++ sep ++ joinSep sep (y :: xs)

/-- Is `n` a prefix of `h`? -/
def prefixOfB : List Char → List Char → Bool
  | [], _ => true
  | a :: as, bs =>
      match bs with
      | [] => false
      | b :: t => a == b && prefixOfB as t

/-- Does `n` occur as a contiguous substring of `h` (JS `String.includes`)? -/
def infixOfB (n : List Char) : List Char → Bool
  | [] => prefixOfB n []
  | c :: t => prefixOfB n (c :: t) || infixOfB n t

/-- JS `hay.includes(needle)`. -/
def strContains (hay needle : String) : Bool := infixOfB needle.data hay.data

/-- First 200-style `substring(0, n)` (code points; the bodies involved are ASCII). -/
def strTake (s : String) (n : Nat) : String := ⟨s.data.take n⟩

/-- `Math.ceil(n / 4)` on naturals. -/
def ceilDiv4 (n : Nat) : Nat := (n + 3) / 4

/-! ## `src/services/serper.js` and the shared result shape -/

/-- Normalized search result (`searchWeb`'s output shape). -/
structure SearchResult where
  title : String
  url : String
  snippet : String
  source : String
  retrieved_at : String
  deriving DecidableEq, Repr

/-- One raw organic result from the provider (fields may be missing). -/
structure SerperRaw where
  title : Option String
  link : Option String
  url : Option String
  snippet : Option String
  deriving DecidableEq, Repr

/-- Outcome of the awaited `axios.post` to the Serper endpoint:
a response (whose `data.organic` may be missing), an HTTP error response
(`error.response`), no response at all (`error.request`), or another
transport error.  The HTTP-error message models
`error.response.data?.message || error.response.statusText`. -/
inductive SerperNet where
  | ok (organic : Option (List SerperRaw))
  | httpErr (status : Nat) (message : String)
  | noResponse
  | transport (message : String)
  deriving DecidableEq, Repr

/-- Result of a `searchWeb` invocation: the value or thrown message, plus
whether the network request was issued. -/
structure SearchWebRun where
  result : Except String (List SearchResult)
  networkCalled : Bool
  deriving DecidableEq, Repr

/-- Query validation: `!q || typeof q !== 'string' || q.trim().length === 0`. -/
def serperQueryOk : JSVal → Bool
  | .vstr s => s != "" && jsTrim s != ""
  | _ => false

/-- Count validation: `typeof num !== 'number' || num < 1 || num > 100`
(true when the count is acceptable). -/
def serperNumOk : JSVal → Bool
  | .vnum x => decide ((1 : ℚ) ≤ x) && decide (x ≤ (100 : ℚ))
  | _ => false

/-- Normalization of one organic result (`title || 'Untitled'`,
`link || url || ''`, `snippet || ''`, provenance and retrieval stamp). -/
def normalizeResult (nowIso : String) (r : SerperRaw) : SearchResult :=
  ⟨jsOrStr r.title "Untitled", jsOrStr r.link (jsOrStr r.url ""), jsOrStr r.snippet "",
   "serper", nowIso⟩

/-- `searchWeb(q, num, gl)` from `src/services/serper.js`.  The three
validations run, in source order, before the request is issued; the network
outcome and the retrieval timestamp are explicit inputs. -/
def searchWeb (apiKey : Option String) (q : JSVal) (num : JSVal) (gl : String)
    (net : SerperNet) (nowIso : String) : SearchWebRun :=
  if !(envSet apiKey) then
    ⟨.error "SERPER_API_KEY is not set in environment variables", false⟩
  else if !(serperQueryOk q) then
    ⟨.error "Search query (q) must be a non-empty string", false⟩
  else if !(serperNumOk num) then
    ⟨.error "Number of results (num) must be between 1 and 100", false⟩
  else
    match net with
    | .ok organic => ⟨.ok ((organic.getD []).map (normalizeResult nowIso)), true⟩
    | .httpErr 401 _ => ⟨.error "Serper API authentication failed: Invalid API key", true⟩
    | .httpErr 429 _ => ⟨.error "Serper API rate limit exceeded", true⟩
    | .httpErr 400 m => ⟨.error ("Serper API bad request: " ++ m), true⟩
    | .httpErr st m => ⟨.error ("Serper API error (" ++ toString st ++ "): " ++ m), true⟩
    | .noResponse => ⟨.error "Serper API network error: No response received", true⟩
    | .transport m =>
        if strContains m "SERPER_API_KEY" then ⟨.error m, true⟩
        else ⟨.error ("Serper API request failed: " ++ m), true⟩

/-! ## `src/services/openai.js` -/

/-- Outcome of an awaited OpenAI chat-completion call (after JSON parsing
where the source parses): success, a 401, a 429, or another error whose
`message` the source interpolates. -/
inductive NetOutcome (α : Type) where
  | ok (a : α)
  | err401
  | err429
  | errOther (message : String)
  deriving DecidableEq, Repr

/-- Parsed JSON body a re-rank model call may return (fields optional to
model `result.rankedIndices || result.ranked_indices || []` and
`result.reasoning || ''`). -/
structure RankNetJson where
  rankedIndices : Option (List Int)
  ranked_indices : Option (List Int)
  reasoning : Option String
  deriving DecidableEq, Repr

/-- `rerankResults`'s return value. -/
structure RankOut where
  rankedIndices : List Int
  reasoning : String
  deriving DecidableEq, Repr

/-- Result of a `rerankResults` invocation: the value or thrown message,
whether the model was called, and the user prompt sent when it was. -/
structure RerankRun where
  result : Except String RankOut
  called : Bool
  userPrompt : Option String
  deriving DecidableEq, Repr

/-- One line of the re-rank prompt's candidate list:
`[idx] title\nURL: url\nSnippet: snippet-or-placeholder`.  The raw result
fields are embedded; only the note body is redacted. -/
def resultLine (idx : Nat) (r : SearchResult) : String :=
  "[" ++ toString idx ++ "] " ++ r.title ++ "\nURL: " ++ r.url ++ "\nSnippet: "
    ++ (if r.snippet = "" then "No snippet" else r.snippet)

/-- `searchResults.map((result, idx) => ...)`, carrying the running index. -/
def resultsLines (idx : Nat) : List SearchResult → List String
  | [] => []
  | r :: rs => resultLine idx r :: resultsLines (idx + 1) rs

/-- `resultsText` in `rerankResults`: candidate lines joined by blank lines. -/
def resultsText (rs : List SearchResult) : String := joinSep "\n\n" (resultsLines 0 rs)

/-- The user message `rerankResults` sends to the model. -/
def rerankUserPrompt (noteContent : String) (rs : List SearchResult) (topN : Nat) : String :=
  "Note:\n" ++ redactPII noteContent ++ "\n\nSearch Results:\n" ++ resultsText rs
    ++ "\n\nRank the top " ++ toString topN ++ " most credible and relevant sources."

/-- `rerankResults(noteContent, searchResults, topN)` from
`src/services/openai.js`: credential and input validation, the empty-results
short-circuit, then the model call whose outcome is an explicit input. -/
def rerankResults (apiKey : Option String) (noteContent : JSVal)
    (searchResults : List SearchResult) (topN : Nat) (net : NetOutcome RankNetJson) :
    RerankRun :=
  if !(envSet apiKey) then
    ⟨.error "OPENAI_API_KEY is not set in environment variables", false, none⟩
  else if !(jsTruthyStr noteContent) then
    ⟨.error "Note content must be a non-empty string", false, none⟩
  else if searchResults.length = 0 then
    ⟨.ok ⟨[], "No results to rank"⟩, false, none⟩
  else
    let prompt := rerankUserPrompt (jsStrVal noteContent) searchResults topN
    match net with
    | .ok j =>
        ⟨.ok ⟨(j.rankedIndices.getD (j.ranked_indices.getD [])).take topN,
          jsOrStr j.reasoning ""⟩, true, some prompt⟩
    | .err401 => ⟨.error "OpenAI API authentication failed: Invalid API key", true, some prompt⟩
    | .err429 => ⟨.error "OpenAI API rate limit exceeded", true, some prompt⟩
    | .errOther m => ⟨.error ("OpenAI API error: " ++ m), true, some prompt⟩

/-- The user message `buildQueries` sends to the model. -/
def buildQueriesUserPrompt (numQueries : Nat) (noteContent : String) : String :=
  "Generate " ++ toString numQueries
    ++ " search queries to find authoritative web sources about this topic:\n\n"
    ++ redactPII noteContent

/-- One line of the citation prompt's source list:
`[idx+1] title\nsnippet-or-empty\nURL: url` (raw fields). -/
def sourceLine (idx : Nat) (s : SearchResult) : String :=
  "[" ++ toString (idx + 1) ++ "] " ++ s.title ++ "\n" ++ s.snippet ++ "\nURL: " ++ s.url

def sourcesLines (idx : Nat) : List SearchResult → List String
  | [] => []
  | s :: ss => sourceLine idx s :: sourcesLines (idx + 1) ss

/-- `sourcesContext` in `elaborateNote`: source lines joined by blank lines. -/
def sourcesContext (ss : List SearchResult) : String := joinSep "\n\n" (sourcesLines 0 ss)

/-- The user message `elaborateNote` sends to the model (cited form when
sources exist, uncited form otherwise). -/
def elaborateUserPrompt (noteContent : String) (sources : List SearchResult) : String :=
  if sources.length > 0 then
    "Note:\n" ++ redactPII noteContent ++ "\n\nSources:\n" ++ sourcesContext sources
      ++ "\n\nProvide an elaboration with inline citations."
  else
    "Note:\n" ++ redactPII noteContent ++ "\n\nProvide a detailed elaboration."

/-! ## `POST /api/notes/:id/elaborate` (src/routes/notes.js)

The route handler is embedded as a pure function of the loaded note, the
`force` flag, the current time (epoch milliseconds) and the outcomes of the
four awaited pipeline stages; it returns the HTTP response together with the
ordered list of external calls issued and database writes performed.
Wall-clock `elapsedMs` fields and logging are presentation-only and omitted;
ISO timestamp rendering is abstracted to the underlying milliseconds. -/

/-- JSON string escaping (the characters that occur in our data). -/
def jsonEscapeChar (c : Char) : List Char :=
  if c = '"' then ['\\', '"']
  else if c = '\\' then ['\\', '\\']
  else if c = '\n' then ['\\', 'n']
  else if c = '\t' then ['\\', 't']
  else if c = '\r' then ['\\', 'r']
  else [c]

def jsonStr (s : String) : String := "\"" ++ ⟨s.data.flatMap jsonEscapeChar⟩ ++ "\""

/-- `JSON.stringify` of one normalized search result (insertion-order keys). -/
def stringifySource (r : SearchResult) : String :=
  "\x7b\"title\":" ++ jsonStr r.title ++ ",\"url\":" ++ jsonStr r.url
    ++ ",\"snippet\":" ++ jsonStr r.snippet ++ ",\"source\":" ++ jsonStr r.source
    ++ ",\"retrieved_at\":" ++ jsonStr r.retrieved_at ++ "\x7d"

/-- `JSON.stringify(topSources)` (used only for the size-based token estimate). -/
def stringifySources (l : List SearchResult) : String :=
  "[" ++ joinSep "," (l.map stringifySource) ++ "]"

/-- A persisted `Reference` row (rank is 1-based citation order). -/
structure RefRow where
  rank : Nat
  title : String
  url : String
  snippet : String
  deriving DecidableEq, Repr

/-- A response section; `content` is optional because the legacy cached shape
`{type:'elaboration', content: cached.elaboratedContent}` may carry an absent
field. -/
structure RSection where
  type : String
  content : Option String
  deriving DecidableEq, Repr

/-- The token-estimate object. -/
structure Tokens where
  total : Nat
  input : Option Nat
  output : Option Nat
  deriving DecidableEq, Repr

/-- The parsed elaboration blob stored in `note.elaborationJson`
(`sections`/`elaboratedContent`/`searchQuery`/`tokens` optional to model
absent JSON fields the cache-read path tolerates). -/
structure ElabRecord where
  contentHash : String
  sections : Option (List RSection)
  elaboratedContent : Option String
  references : List RefRow
  searchQuery : Option String
  tokens : Option Tokens
  deriving DecidableEq, Repr

/-- A stored `elaborationJson` string either parses to a record or throws in
`JSON.parse` (treated as a cache miss). -/
inductive StoredJson where
  | corrupt
  | parsed (r : ElabRecord)
  deriving DecidableEq, Repr

/-- The loaded note with its references (ordered by rank). -/
structure NoteRow where
  id : String
  bodyMd : Option String
  elaborationJson : Option StoredJson
  updatedAt : Option Int
  references : List RefRow
  deriving DecidableEq, Repr

/-- Response metadata (`elapsedMs` omitted: wall-clock). -/
structure RMeta where
  cached : Bool
  cacheAge : Option Int
  searchQuery : Option String
  tokens : Tokens
  sourcesFound : Option Nat
  sourcesUsed : Option Nat
  deriving DecidableEq, Repr

/-- The HTTP response: a 200 body or an error status with message. -/
inductive RouteOut where
  | ok (sections : List RSection) (references : List RefRow) (metadata : RMeta)
  | fail (status : Nat) (message : String)
  deriving DecidableEq, Repr

def RouteOut.statusCode : RouteOut → Nat
  | .ok _ _ _ => 200
  | .fail s _ => s

def RouteOut.isOk : RouteOut → Bool
  | .ok _ _ _ => true
  | .fail _ _ => false

/-- The four external collaborators the fresh pipeline can call. -/
inductive ExtCall where
  | buildQueriesCall
  | searchWebCall
  | rerankCall
  | generateCall
  deriving DecidableEq, Repr

/-- Database writes the route can perform. -/
inductive DbWrite where
  | deleteReferences (noteId : String)
  | createReferences (noteId : String) (rows : List RefRow)
  | updateNoteJson (noteId : String) (stored : ElabRecord)
  deriving DecidableEq, Repr

def isDeleteWrite : DbWrite → Bool
  | .deleteReferences _ => true
  | _ => false

/-- A finished request: response, external calls issued (in order), database
writes performed (in order). -/
structure RouteRun where
  out : RouteOut
  calls : List ExtCall
  writes : List DbWrite
  deriving DecidableEq, Repr

/-- `buildQueries`'s return value as the route consumes it. -/
structure BQOut where
  queries : List String
  keywords : List String
  deriving DecidableEq, Repr

/-- Outcomes of the four awaited stage promises (resolved value or rejection
message).  Persistence is modelled as infallible. -/
structure StageOutcomes where
  buildQ : Except String BQOut
  search : Except String (List SearchResult)
  rerank : Except String RankOut
  generate : Except String String
  deriving DecidableEq, Repr

/-- `queries[0] || keywords.join(' ')`. -/
def searchQueryOf (bq : BQOut) : String :=
  match bq.queries.head? with
  | some q => if q = "" then joinSep " " bq.keywords else q
  | none => joinSep " " bq.keywords

/-- JS array indexing (`searchResults[idx]`): `undefined` outside the range. -/
def jsIndex (l : List SearchResult) (i : Int) : Option SearchResult :=
  if i < 0 then none else l[i.toNat]?

/-- `reranked.rankedIndices.slice(0, 6).map(idx => searchResults[idx])` —
note: the route applies no range filter, so entries may be `undefined`. -/
def selectSources (rs : List SearchResult) (rk : RankOut) : List (Option SearchResult) :=
  (rk.rankedIndices.take 6).map (fun idx => jsIndex rs idx)

/-- `topSources.map((source, idx) => ({rank: idx+1, ...}))`. -/
def refsFromSources (srcs : List SearchResult) : List RefRow :=
  srcs.enum.map (fun p => ⟨p.1 + 1, p.2.title, p.2.url, p.2.snippet⟩)

/-- The size-based token estimate of the fresh path. -/
def freshTokens (body content : String) (srcs : List SearchResult) : Tokens :=
  ⟨ceilDiv4 (body.length + content.length + (stringifySources srcs).length),
   some (ceilDiv4 (body.length + (stringifySources srcs).length)),
   some (ceilDiv4 content.length)⟩

/-- The blob persisted on the zero-search-results path. -/
def noResultsRecord (contentHash searchQuery content : String) : ElabRecord :=
  ⟨contentHash, some [⟨"elaboration", some content⟩], none, [], some searchQuery,
   some ⟨0, none, none⟩⟩

/-- The blob persisted on the fresh path with results. -/
def freshRecord (contentHash searchQuery : String) (sections : List RSection)
    (references : List RefRow) (tokens : Tokens) : ElabRecord :=
  ⟨contentHash, some sections, none, references, some searchQuery, some tokens⟩

/-- Step 3's cache test: a stored blob exists, `force` is unset, the blob
parses, its `contentHash` equals the current hash, and the 24h TTL gate
accepts `note.updatedAt`.  A parse failure falls through to regeneration. -/
def cacheHitOf (note : NoteRow) (body : String) (force : Bool) (now : Int) :
    Option ElabRecord :=
  match note.elaborationJson, force with
  | some sj, false =>
    match sj with
    | .corrupt => none
    | .parsed r =>
        if r.contentHash = generateHashStr body ∧ isCacheValid note.updatedAt 24 now = true
        then some r else none
  | _, _ => none

/-- `cached.sections || [{type:'elaboration', content: cached.elaboratedContent}]`. -/
def cachedSections (r : ElabRecord) : List RSection :=
  r.sections.getD [⟨"elaboration", r.elaboratedContent⟩]

/-- `note.references.map(ref => ({rank, title, url, snippet}))`. -/
def refsOut (l : List RefRow) : List RefRow :=
  l.map (fun ref => ⟨ref.rank, ref.title, ref.url, ref.snippet⟩)

/-- Steps 4–7 of the route: the fresh pipeline after a cache miss. -/
def freshPipeline (noteId body contentHash : String) (st : StageOutcomes) : RouteRun :=
  match st.buildQ with
  | .error e => ⟨.fail 500 e, [.buildQueriesCall], []⟩
  | .ok bq =>
    let searchQuery := searchQueryOf bq
    match st.search with
    | .error e => ⟨.fail 500 e, [.buildQueriesCall, .searchWebCall], []⟩
    | .ok searchResults =>
      if searchResults.length = 0 then
        match st.generate with
        | .error e =>
            ⟨.fail 500 e, [.buildQueriesCall, .searchWebCall, .generateCall], []⟩
        | .ok content =>
            ⟨.ok [⟨"elaboration", some content⟩] []
                ⟨false, none, some searchQuery, ⟨0, none, none⟩, none, none⟩,
              [.buildQueriesCall, .searchWebCall, .generateCall],
              [.updateNoteJson noteId (noResultsRecord contentHash searchQuery content)]⟩
      else
        match st.rerank with
        | .error e =>
            ⟨.fail 500 e, [.buildQueriesCall, .searchWebCall, .rerankCall], []⟩
        | .ok rk =>
          let topSources? := selectSources searchResults rk
          if topSources?.any (fun o => o.isNone) then
            -- `topSources.forEach(... source.title.substring ...)` throws on
            -- the `undefined` produced by an out-of-range index
            ⟨.fail 500 "TypeError: Cannot read properties of undefined (reading 'title')",
              [.buildQueriesCall, .searchWebCall, .rerankCall], []⟩
          else
            let topSources := topSources?.filterMap id
            match st.generate with
            | .error e =>
                ⟨.fail 500 e,
                  [.buildQueriesCall, .searchWebCall, .rerankCall, .generateCall], []⟩
            | .ok content =>
              let sections : List RSection :=
                [⟨"summary", some (strTake body 200)⟩, ⟨"elaboration", some content⟩]
              let references := refsFromSources topSources
              let tokens := freshTokens body content topSources
              ⟨.ok sections references
                  ⟨false, none, some searchQuery, tokens, some searchResults.length,
                   some topSources.length⟩,
                [.buildQueriesCall, .searchWebCall, .rerankCall, .generateCall],
                [.deleteReferences noteId]
                  ++ (if references.length > 0 then [.createReferences noteId references] else [])
                  ++ [.updateNoteJson noteId
                        (freshRecord contentHash searchQuery sections references tokens)]⟩

/-- The whole `POST /api/notes/:id/elaborate` handler. -/
def elaborateRoute (note? : Option NoteRow) (force : Bool) (now : Int)
    (st : StageOutcomes) : RouteRun :=
  match note? with
  | none => ⟨.fail 404 "Note not found", [], []⟩
  | some note =>
    match note.bodyMd with
    | none => ⟨.fail 400 "Cannot elaborate on an empty note", [], []⟩
    | some body =>
      if jsTrim body = "" then ⟨.fail 400 "Cannot elaborate on an empty note", [], []⟩
      else
        match cacheHitOf note body force now with
        | some r =>
            ⟨.ok (cachedSections r) (refsOut note.references)
                ⟨true, note.updatedAt, r.searchQuery, r.tokens.getD ⟨0, none, none⟩,
                 none, none⟩, [], []⟩
        | none => freshPipeline note.id body (generateHashStr body) st

/-! ## Concrete inputs used by witnesses and counterexamples -/

/-- Is `c` a lowercase hexadecimal digit? -/
def isLowerHexChar (c : Char) : Bool := decide (c ∈ hexDigits)

/-- `needle` occurs verbatim as a contiguous substring of `hay`. -/
def occursIn (needle hay : String) : Prop := needle.data <:+: hay.data

def noteC1 : NoteRow :=
  ⟨"n1", some "abc",
   some (.parsed ⟨generateHashStr "abc", some [⟨"elaboration", some "stored text"⟩], none,
     [⟨1, "T", "U", "S"⟩], some "orig query", some ⟨42, none, none⟩⟩),
   some 0, [⟨1, "T", "U", "S"⟩]⟩

def recC1 : ElabRecord :=
  ⟨generateHashStr "abc", some [⟨"elaboration", some "stored text"⟩], none,
   [⟨1, "T", "U", "S"⟩], some "orig query", some ⟨42, none, none⟩⟩

/-- All four stages failing: a cache hit never consults them. -/
def stC1 : StageOutcomes := ⟨.error "down", .error "down", .error "down", .error "down"⟩

def rsC2 : List SearchResult :=
  [⟨"r1", "u1", "s1", "serper", "t"⟩, ⟨"r2", "u2", "s2", "serper", "t"⟩,
   ⟨"r3", "u3", "s3", "serper", "t"⟩]

def stC2 : StageOutcomes :=
  ⟨.ok ⟨["q"], []⟩, .ok rsC2, .ok ⟨[5], "picked index 5"⟩, .ok "never reached"⟩

def noteC2 : NoteRow := ⟨"n2", some "b", none, some 0, []⟩

/-- C3 counterexample: a successful fresh elaboration on the
zero-search-results path responds 200 yet performs no `deleteReferences`
write, leaving the note's existing Reference rows in place. -/
def noteC3 : NoteRow :=
  ⟨"n1", some "b", none, some 0, [⟨1, "old title", "http://old", "old snip"⟩]⟩

def stC3 : StageOutcomes :=
  ⟨.ok ⟨["q"], []⟩, .ok [], .error "unused", .ok "generated text"⟩

def noteC5 : NoteRow := ⟨"n5", some "b", none, some 0, [⟨1, "old", "u", "s"⟩]⟩

/-- Search stage rejects: the pipeline fails mid-way. -/
def stC5 : StageOutcomes :=
  ⟨.ok ⟨["q"], []⟩, .error "Serper API network error: No response received",
   .error "unused", .ok "unused"⟩

/-! ## Theorems: hash utilities (C6, C10) -/

/-- Any two sufficient fuels agree for the scanner, so the fuel in
`replaceAll` below is semantically inert. -/
theorem scanReplaceF_stable (f₁ : Nat) : ∀ (f₂ : Nat) (pat : List (List SItem))
    (token : List Char) (prev : Option Char) (s : List Char),
    s.length ≤ f₁ → s.length ≤ f₂ →
    scanReplaceF f₁ pat token prev s = scanReplaceF f₂ pat token prev s := by
  induction f₁ using Nat.strong_induction_on with
  | _ f₁ IH =>
    intro f₂ pat token prev s h₁ h₂
    match f₁ with
    | 0 =>
      have hs : s = [] := List.length_eq_zero.mp (by omega)
      subst hs
      cases f₂ <;> rfl
    | g₁ + 1 =>
      cases s with
      | nil => cases f₂ <;> rfl
      | cons c rest =>
        match f₂, h₂ with
        | g₂ + 1, h₂ =>
          simp only [scanReplaceF]
          cases hm : matchAlts pat prev (c :: rest) with
          | none =>
            rw [IH g₁ (by omega) g₂ pat token (some c) rest (by simp at h₁; omega)
              (by simp at h₂; omega)]
          | some n =>
            dsimp only
            by_cases hn : n = 0
            · subst hn
              rw [if_pos rfl, if_pos rfl,
                IH g₁ (by omega) g₂ pat token (some c) rest (by simp at h₁; omega)
                  (by simp at h₂; omega)]
            · have hd : ((c :: rest).drop n).length ≤ rest.length := by
                rw [List.length_drop]; simp; omega
              rw [if_neg hn, if_neg hn,
                IH g₁ (by omega) g₂ pat token ((c :: rest)[n - 1]?) ((c :: rest).drop n)
                  (by simp at h₁; omega) (by simp at h₂; omega)]


theorem hexDigit_mem (n : Nat) : hexDigit n ∈ hexDigits := by
  have h : n % 16 < 16 := Nat.mod_lt _ (by norm_num)
  unfold hexDigit
  set m := n % 16 with hm
  interval_cases m <;> decide

theorem wordHexChars_mem {c : Char} {w : Nat} (h : c ∈ wordHexChars w) : c ∈ hexDigits := by
  simp only [wordHexChars, List.mem_cons, List.not_mem_nil, or_false] at h
  rcases h with h | h | h | h | h | h | h | h <;> (subst h; exact hexDigit_mem _)

theorem flatten_map_wordHex_length (l : List Nat) :
    ((l.map wordHexChars).flatten).length = 8 * l.length := by
  induction l with
  | nil => simp
  | cons x xs ih =>
    simp only [List.map_cons, List.flatten_cons, List.length_append, ih, List.length_cons]
    have : (wordHexChars x).length = 8 := rfl
    omega

theorem sha256Words_length (m : List Nat) : (sha256Words m).length = 8 := rfl

theorem sha256Hex_length (s : String) : (sha256Hex s).length = 64 := by
  show (((sha256Words (strBytes s)).map wordHexChars).flatten).length = 64
  rw [flatten_map_wordHex_length, sha256Words_length]

theorem sha256Hex_chars (s : String) : (sha256Hex s).data.all isLowerHexChar = true := by
  rw [List.all_eq_true]
  intro c hc
  have hc' : c ∈ ((sha256Words (strBytes s)).map wordHexChars).flatten := hc
  rw [List.mem_flatten] at hc'
  obtain ⟨l, hl, hcl⟩ := hc'
  rw [List.mem_map] at hl
  obtain ⟨w, _, rfl⟩ := hl
  simpa [isLowerHexChar] using wordHexChars_mem hcl

/-- C10: `generateHash` is total and shape-stable: every non-string or empty
input yields the empty string, and every non-empty string input yields a
64-character lowercase hexadecimal digest. -/
theorem generateHash_total_shape :
    (∀ v : JSVal, (∀ s : String, v ≠ JSVal.vstr s) → generateHash v = "")
    ∧ generateHash (JSVal.vstr "") = ""
    ∧ (∀ s : String, s ≠ "" →
        (generateHash (JSVal.vstr s)).length = 64
        ∧ (generateHash (JSVal.vstr s)).data.all isLowerHexChar = true) := by
  refine ⟨?_, rfl, ?_⟩
  · intro v hv
    cases v with
    | vstr s => exact absurd rfl (hv s)
    | vnull => rfl
    | vundef => rfl
    | vbool b => rfl
    | vnum q => rfl
  · intro s hs
    have h : generateHash (JSVal.vstr s) = sha256Hex (jsTrim s) := by
      simp [generateHash, hs]
    rw [h]
    exact ⟨sha256Hex_length _, sha256Hex_chars _⟩

/-- Witness for C10 at concrete inputs. -/
theorem generateHash_total_shape_witness :
    generateHash JSVal.vnull = ""
    ∧ generateHash (JSVal.vstr "") = ""
    ∧ (generateHash (JSVal.vstr "abc")).length = 64
    ∧ (generateHash (JSVal.vstr "abc")).data.all isLowerHexChar = true := by
  refine ⟨generateHash_total_shape.1 JSVal.vnull ?_, generateHash_total_shape.2.1, ?_⟩
  · intro s h
    exact JSVal.noConfusion h
  · exact generateHash_total_shape.2.2 "abc" (by decide)

/-- C6: `isCacheValid` returns false for a missing timestamp, and otherwise
is true exactly when the elapsed age is strictly below the TTL: a timestamp
exactly at the 24-hour boundary is expired, one millisecond younger is valid,
and a future timestamp (negative age) is valid. -/
theorem isCacheValid_spec :
    (∀ ttl now, isCacheValid none ttl now = false)
    ∧ (∀ t ttl now, isCacheValid (some t) ttl now = decide (now - t < ttl * 3600000))
    ∧ isCacheValid (some 0) 24 86400000 = false
    ∧ isCacheValid (some 0) 24 86399999 = true
    ∧ isCacheValid (some 86400000) 24 0 = true := by
  exact ⟨fun _ _ => rfl, fun _ _ _ => rfl, by decide, by decide, by decide⟩

/-! ## Theorems: PII redaction (C9) and service validation (C7, C8) -/

/-- C9 counterexample: `redactPII` is not idempotent.  On
`"a@b.com1234567890"` the email pattern fails in the first pass (the digit
after `.com` breaks the trailing word boundary), the phone pass then removes
the ten digits, and a second application redacts the now-exposed email. -/
theorem redactPII_not_idempotent :
    redactPII "a@b.com1234567890" = "a@b.com[PHONE_REDACTED]"
    ∧ redactPII "a@b.com[PHONE_REDACTED]" = "[EMAIL_REDACTED][PHONE_REDACTED]"
    ∧ redactPII (redactPII "a@b.com1234567890") ≠ redactPII "a@b.com1234567890" := by
  refine ⟨by decide, by decide, by decide⟩

/-- C9 amended: no replacement placeholder contains text matching any of the
six redaction patterns — each placeholder is a fixed point of `redactPII` —
even though `redactPII` itself is not idempotent. -/
theorem redactPII_placeholders_are_fixed_points :
    redactPII "[EMAIL_REDACTED]" = "[EMAIL_REDACTED]"
    ∧ redactPII "[PHONE_REDACTED]" = "[PHONE_REDACTED]"
    ∧ redactPII "[SSN_REDACTED]" = "[SSN_REDACTED]"
    ∧ redactPII "[CARD_REDACTED]" = "[CARD_REDACTED]"
    ∧ redactPII "[IP_REDACTED]" = "[IP_REDACTED]"
    ∧ redactPII "[API_KEY_REDACTED]" = "[API_KEY_REDACTED]" := by
  refine ⟨by decide, by decide, by decide, by decide, by decide, by decide⟩

/-- C8 counterexample: with the model credential unset, `rerankResults`
throws the missing-key validation error even for an empty results array, so
the empty-list short-circuit is not reached. -/
theorem rerank_missing_credential_throws :
    rerankResults none (.vstr "note") [] 5 (.ok ⟨none, none, none⟩) =
      ⟨.error "OPENAI_API_KEY is not set in environment variables", false, none⟩
    ∧ (rerankResults none (.vstr "note") [] 5 (.ok ⟨none, none, none⟩)).result ≠
        .ok ⟨[], "No results to rank"⟩ := by
  refine ⟨by decide, by decide⟩

/-- C8 amended: provided the model credential is configured, for every
non-empty note body and every `topN`, `rerankResults` on an empty result
list returns exactly `{rankedIndices: [], reasoning: "No results to rank"}`
without any model call. -/
theorem rerank_empty_results_shortcircuit (key body : String) (topN : Nat)
    (net : NetOutcome RankNetJson) (hk : key ≠ "") (hb : body ≠ "") :
    rerankResults (some key) (.vstr body) [] topN net =
      ⟨.ok ⟨[], "No results to rank"⟩, false, none⟩ := by
  have h1 : envSet (some key) = true := by simp [envSet, hk]
  have h2 : jsTruthyStr (.vstr body) = true := by simp [jsTruthyStr, hb]
  simp [rerankResults, h1, h2]

/-- Witness for the amended C8 at a concrete credential, body and outcome. -/
theorem rerank_empty_results_shortcircuit_witness :
    "k" ≠ "" ∧ "note" ≠ ""
    ∧ rerankResults (some "k") (.vstr "note") [] 5 (.ok ⟨none, none, none⟩) =
        ⟨.ok ⟨[], "No results to rank"⟩, false, none⟩ :=
  ⟨by decide, by decide,
   rerank_empty_results_shortcircuit "k" "note" 5 (.ok ⟨none, none, none⟩)
     (by decide) (by decide)⟩

/-- C7 counterexample: `maxResults = 2.5` is not an integer in `[1,100]`,
yet all validations pass (the code only checks `typeof num !== 'number' ||
num < 1 || num > 100`) and the network request is issued. -/
theorem searchWeb_fractional_count_reaches_network :
    searchWeb (some "key") (.vstr "q") (.vnum (5 / 2)) "us" (.ok (some [])) "t" =
      ⟨.ok [], true⟩ := by
  have hnum : serperNumOk (.vnum (5 / 2)) = true := by
    simp [serperNumOk]
    norm_num
  simp [searchWeb, envSet, serperQueryOk, hnum]
  decide

/-- C7 amended: whenever the credential is unset, the query is not a
non-empty string after trimming, or the count is not a number in `[1,100]`,
`searchWeb` throws one of its three validation errors and issues no network
request. -/
theorem searchWeb_validation_before_network (apiKey : Option String) (q num : JSVal)
    (gl : String) (net : SerperNet) (nowIso : String)
    (h : envSet apiKey = false ∨ serperQueryOk q = false ∨ serperNumOk num = false) :
    (searchWeb apiKey q num gl net nowIso).networkCalled = false
    ∧ ((searchWeb apiKey q num gl net nowIso).result =
          .error "SERPER_API_KEY is not set in environment variables"
       ∨ (searchWeb apiKey q num gl net nowIso).result =
          .error "Search query (q) must be a non-empty string"
       ∨ (searchWeb apiKey q num gl net nowIso).result =
          .error "Number of results (num) must be between 1 and 100") := by
  cases hK : envSet apiKey with
  | false => simp [searchWeb, hK]
  | true =>
    cases hQ : serperQueryOk q with
    | false => simp [searchWeb, hK, hQ]
    | true =>
      cases hN : serperNumOk num with
      | false => simp [searchWeb, hK, hQ, hN]
      | true => rw [hK, hQ, hN] at h; simp at h

/-- Witness for the amended C7: a non-numeric count at a configured
credential and valid query is rejected with no network call. -/
theorem searchWeb_validation_before_network_witness :
    serperNumOk (.vstr "10") = false
    ∧ (searchWeb (some "k") (.vstr "q") (.vstr "10") "us" (.ok (some [])) "t").networkCalled
        = false
    ∧ ((searchWeb (some "k") (.vstr "q") (.vstr "10") "us" (.ok (some [])) "t").result =
          .error "SERPER_API_KEY is not set in environment variables"
       ∨ (searchWeb (some "k") (.vstr "q") (.vstr "10") "us" (.ok (some [])) "t").result =
          .error "Search query (q) must be a non-empty string"
       ∨ (searchWeb (some "k") (.vstr "q") (.vstr "10") "us" (.ok (some [])) "t").result =
          .error "Number of results (num) must be between 1 and 100") :=
  ⟨rfl,
   (searchWeb_validation_before_network (some "k") (.vstr "q") (.vstr "10") "us"
      (.ok (some [])) "t" (Or.inr (Or.inr rfl))).1,
   (searchWeb_validation_before_network (some "k") (.vstr "q") (.vstr "10") "us"
      (.ok (some [])) "t" (Or.inr (Or.inr rfl))).2⟩

/-! ## Theorems: prompt construction and redaction (C4) -/

/-- A member of a joined list occurs verbatim in the join. -/
theorem infix_joinSep (sep : String) (l : List String) (x : String) (hx : x ∈ l) :
    occursIn x (joinSep sep l) := by
  induction l with
  | nil => cases hx
  | cons y ys ih =>
    cases ys with
    | nil =>
      have : x = y := List.mem_singleton.mp hx
      subst this
      exact List.infix_refl _
    | cons z zs =>
      rcases List.mem_cons.mp hx with h | h
      · subst h
        exact ⟨[], (sep ++ joinSep sep (z :: zs)).data, by simp [joinSep, String.data_append]⟩
      · have step : occursIn (joinSep sep (z :: zs)) (joinSep sep (y :: z :: zs)) :=
          ⟨(y ++ sep).data, [], by simp [joinSep, String.data_append]⟩
        exact (ih h).trans step

theorem exists_mem_resultsLines (rs : List SearchResult) (r : SearchResult) :
    ∀ k, r ∈ rs → ∃ i, resultLine i r ∈ resultsLines k rs := by
  induction rs with
  | nil => intro k h; cases h
  | cons a t ih =>
    intro k h
    rcases List.mem_cons.mp h with h | h
    · subst h; exact ⟨k, List.mem_cons_self _ _⟩
    · obtain ⟨i, hi⟩ := ih (k + 1) h
      exact ⟨i, List.mem_cons_of_mem _ hi⟩

theorem exists_mem_sourcesLines (ss : List SearchResult) (s : SearchResult) :
    ∀ k, s ∈ ss → ∃ i, sourceLine i s ∈ sourcesLines k ss := by
  induction ss with
  | nil => intro k h; cases h
  | cons a t ih =>
    intro k h
    rcases List.mem_cons.mp h with h | h
    · subst h; exact ⟨k, List.mem_cons_self _ _⟩
    · obtain ⟨i, hi⟩ := ih (k + 1) h
      exact ⟨i, List.mem_cons_of_mem _ hi⟩

/-- A candidate's snippet appears verbatim in its re-rank prompt line. -/
theorem snippet_occursIn_resultLine (i : Nat) (r : SearchResult) (hs : r.snippet ≠ "") :
    occursIn r.snippet (resultLine i r) :=
  ⟨("[" ++ toString i ++ "] " ++ r.title ++ "\nURL: " ++ r.url ++ "\nSnippet: ").data, [],
   by simp [resultLine, if_neg hs, String.data_append]⟩

/-- A source's snippet appears verbatim in its citation prompt line. -/
theorem snippet_occursIn_sourceLine (i : Nat) (s : SearchResult) :
    occursIn s.snippet (sourceLine i s) :=
  ⟨("[" ++ toString (i + 1) ++ "] " ++ s.title ++ "\n").data, ("\nURL: " ++ s.url).data,
   by simp [sourceLine, String.data_append]⟩

/-- C4 amended: the note body is redacted before being embedded into the
prompts of the Query Builder, Credibility Ranker and Citation Generator (the
redacted body occurs verbatim in each), but search-result snippets are
embedded into the Ranker and Citation Generator prompts raw, without
redaction (each snippet occurs verbatim in the prompt). -/
theorem prompts_redact_body_but_embed_raw_snippets
    (content : String) (n topN : Nat) (rs sources : List SearchResult) :
    occursIn (redactPII content) (buildQueriesUserPrompt n content)
    ∧ occursIn (redactPII content) (rerankUserPrompt content rs topN)
    ∧ occursIn (redactPII content) (elaborateUserPrompt content sources)
    ∧ (∀ r ∈ rs, r.snippet ≠ "" → occursIn r.snippet (rerankUserPrompt content rs topN))
    ∧ (∀ s ∈ sources, occursIn s.snippet (elaborateUserPrompt content sources)) := by
  refine ⟨?_, ?_, ?_, ?_, ?_⟩
  · exact ⟨("Generate " ++ toString n
        ++ " search queries to find authoritative web sources about this topic:\n\n").data,
      [], by simp [buildQueriesUserPrompt, String.data_append]⟩
  · exact ⟨("Note:\n").data,
      ("\n\nSearch Results:\n" ++ resultsText rs ++ "\n\nRank the top " ++ toString topN
        ++ " most credible and relevant sources.").data,
      by simp [rerankUserPrompt, String.data_append]⟩
  · unfold elaborateUserPrompt
    by_cases hlen : sources.length > 0
    · rw [if_pos hlen]
      exact ⟨("Note:\n").data,
        ("\n\nSources:\n" ++ sourcesContext sources
          ++ "\n\nProvide an elaboration with inline citations.").data,
        by simp [String.data_append]⟩
    · rw [if_neg hlen]
      exact ⟨("Note:\n").data, ("\n\nProvide a detailed elaboration.").data,
        by simp [String.data_append]⟩
  · intro r hr hs
    obtain ⟨i, hi⟩ := exists_mem_resultsLines rs r 0 hr
    have h1 : occursIn r.snippet (resultsText rs) :=
      (snippet_occursIn_resultLine i r hs).trans (infix_joinSep "\n\n" _ _ hi)
    have h2 : occursIn (resultsText rs) (rerankUserPrompt content rs topN) :=
      ⟨("Note:\n" ++ redactPII content ++ "\n\nSearch Results:\n").data,
       ("\n\nRank the top " ++ toString topN ++ " most credible and relevant sources.").data,
       by simp [rerankUserPrompt, String.data_append]⟩
    exact h1.trans h2
  · intro s hsm
    have hlen : sources.length > 0 := List.length_pos.mpr (List.ne_nil_of_mem hsm)
    obtain ⟨i, hi⟩ := exists_mem_sourcesLines sources s 0 hsm
    have h1 : occursIn s.snippet (sourcesContext sources) :=
      (snippet_occursIn_sourceLine i s).trans (infix_joinSep "\n\n" _ _ hi)
    have h2 : occursIn (sourcesContext sources) (elaborateUserPrompt content sources) := by
      unfold elaborateUserPrompt
      rw [if_pos hlen]
      exact ⟨("Note:\n" ++ redactPII content ++ "\n\nSources:\n").data,
        ("\n\nProvide an elaboration with inline citations.").data,
        by simp [String.data_append]⟩
    exact h1.trans h2

/-- Witness for the amended C4 at a concrete body and result list. -/
theorem prompts_redact_body_but_embed_raw_snippets_witness :
    occursIn (redactPII "note body")
      (buildQueriesUserPrompt 1 "note body")
    ∧ occursIn "contact a@b.com now"
        (rerankUserPrompt "note body"
          [⟨"Title", "https://u", "contact a@b.com now", "serper", "ts"⟩] 6) :=
  ⟨(prompts_redact_body_but_embed_raw_snippets "note body" 1 6
      [⟨"Title", "https://u", "contact a@b.com now", "serper", "ts"⟩] []).1,
   (prompts_redact_body_but_embed_raw_snippets "note body" 1 6
      [⟨"Title", "https://u", "contact a@b.com now", "serper", "ts"⟩] []).2.2.2.1
     ⟨"Title", "https://u", "contact a@b.com now", "serper", "ts"⟩
     (List.mem_singleton.mpr rfl) (by decide)⟩

/-- C4 counterexample: a search-result snippet containing an email address
is embedded raw into the re-rank prompt — the raw email substring appears in
the outbound prompt payload, although `redactPII` would have removed it. -/
theorem rerank_prompt_contains_raw_snippet_email :
    strContains
      (rerankUserPrompt "note body"
        [⟨"Title", "https://u", "contact a@b.com now", "serper", "ts"⟩] 6)
      "a@b.com" = true
    ∧ strContains (redactPII "contact a@b.com now") "a@b.com" = false := by
  refine ⟨by decide, by decide⟩

/-! ## Theorems: the elaborate route (C1, C2, C3, C5) -/

/-- C1: for every request where the note exists, its body is non-empty after
trimming, `force` is unset, the stored blob parses with a `contentHash`
matching the hash of the current body, and the 24h TTL gate accepts
`note.updatedAt`, the route returns the stored sections and references
re-wrapped with `cached:true` metadata (age, original search query, token
estimate) and — for every possible stage outcome — issues zero external
calls and performs zero writes. -/
theorem elaborate_cache_hit_zero_calls (note : NoteRow) (body : String)
    (r : ElabRecord) (now : Int) (st : StageOutcomes)
    (hb : note.bodyMd = some body) (hne : jsTrim body ≠ "")
    (hj : note.elaborationJson = some (.parsed r))
    (hh : r.contentHash = generateHashStr body)
    (ht : isCacheValid note.updatedAt 24 now = true) :
    elaborateRoute (some note) false now st =
      ⟨.ok (cachedSections r) (refsOut note.references)
        ⟨true, note.updatedAt, r.searchQuery, r.tokens.getD ⟨0, none, none⟩, none, none⟩,
       [], []⟩ := by
  have hch : cacheHitOf note body false now = some r := by
    unfold cacheHitOf
    rw [hj]
    simp [hh, ht]
  simp [elaborateRoute, hb, hne, hch]

/-- Witness for C1 at a concrete cached note (with every stage failing). -/
theorem elaborate_cache_hit_zero_calls_witness :
    elaborateRoute (some noteC1) false 1000 stC1 =
      ⟨.ok (cachedSections recC1) (refsOut noteC1.references)
        ⟨true, some 0, some "orig query", ⟨42, none, none⟩, none, none⟩, [], []⟩ :=
  elaborate_cache_hit_zero_calls noteC1 "abc" recC1 1000 stC1 rfl (by decide) rfl rfl
    (by decide)

/-- C2 (code bug evidence): with three search results and a ranker output of
`[5]`, the route dereferences `searchResults[5]` without any range filter:
the selected entry is `undefined` (not an element of the results), the
request crashes with a 500 before the Citation Generator is called, and
nothing is persisted. -/
theorem elaborate_out_of_range_index_crashes :
    selectSources rsC2 ⟨[5], "picked index 5"⟩ = [none]
    ∧ elaborateRoute (some noteC2) false 0 stC2 =
        ⟨.fail 500 "TypeError: Cannot read properties of undefined (reading 'title')",
         [.buildQueriesCall, .searchWebCall, .rerankCall], []⟩ := by
  refine ⟨by decide, by decide⟩

/-- C3 counterexample theorem (see `noteC3`, `stC3`). -/
theorem elaborate_no_results_keeps_reference_rows :
    ((elaborateRoute (some noteC3) false 0 stC3).out).statusCode = 200
    ∧ noteC3.references ≠ []
    ∧ ((elaborateRoute (some noteC3) false 0 stC3).writes.all
        fun w => !(isDeleteWrite w)) = true := by
  refine ⟨by decide, by decide, by decide⟩

/-- C3 amended: Reference rows are untouched on a cache hit; on a successful
fresh elaboration **with** search results they are fully replaced
(delete-all, then insert of the newly selected rows — the insert is skipped
when the selection is empty); on the successful zero-search-results path the
route only overwrites the elaboration blob and existing Reference rows are
left in place. -/
theorem reference_replacement_lifecycle (note : NoteRow) (body : String) (force : Bool)
    (now : Int) (st : StageOutcomes)
    (hb : note.bodyMd = some body) (hne : jsTrim body ≠ "") :
    (∀ r, cacheHitOf note body force now = some r →
        (elaborateRoute (some note) force now st).writes = [])
    ∧ (cacheHitOf note body force now = none →
       ∀ bq content, st.buildQ = .ok bq → st.generate = .ok content →
        (st.search = .ok [] →
          (elaborateRoute (some note) force now st).writes =
            [.updateNoteJson note.id
              (noResultsRecord (generateHashStr body) (searchQueryOf bq) content)])
        ∧ (∀ rs rk, st.search = .ok rs → rs ≠ [] → st.rerank = .ok rk →
            ((selectSources rs rk).all fun o => o.isSome) = true →
            (elaborateRoute (some note) force now st).writes =
              .deleteReferences note.id ::
                ((if (refsFromSources ((selectSources rs rk).filterMap id)).length > 0
                  then [.createReferences note.id
                          (refsFromSources ((selectSources rs rk).filterMap id))]
                  else [])
                 ++ [.updateNoteJson note.id
                      (freshRecord (generateHashStr body) (searchQueryOf bq)
                        [⟨"summary", some (strTake body 200)⟩,
                         ⟨"elaboration", some content⟩]
                        (refsFromSources ((selectSources rs rk).filterMap id))
                        (freshTokens body content
                          ((selectSources rs rk).filterMap id)))]))) := by
  constructor
  · intro r hch
    simp [elaborateRoute, hb, hne, hch]
  · intro hch bq content hbq hg
    have he : elaborateRoute (some note) force now st =
        freshPipeline note.id body (generateHashStr body) st := by
      simp [elaborateRoute, hb, hne, hch]
    constructor
    · intro hse
      rw [he]
      simp [freshPipeline, hbq, hse, hg]
    · intro rs rk hse hrs hrk hall
      have hlen : ¬rs.length = 0 := by
        intro h0
        exact hrs (List.length_eq_zero.mp h0)
      have hnone : ((selectSources rs rk).any fun o => o.isNone) = false := by
        rw [Bool.eq_false_iff]
        intro hany
        obtain ⟨o, ho, hno⟩ := List.any_eq_true.mp hany
        have hsome := List.all_eq_true.mp hall o ho
        cases o with
        | none => simp at hsome
        | some v => simp at hno
      rw [he]
      simp [freshPipeline, hbq, hse, hlen, hrk, hnone, hg]

/-- Witness for the amended C3 on the zero-results path at concrete inputs. -/
theorem reference_replacement_lifecycle_witness :
    (elaborateRoute (some noteC3) false 0 stC3).writes =
      [.updateNoteJson "n1"
        (noResultsRecord (generateHashStr "b") (searchQueryOf ⟨["q"], []⟩)
          "generated text")] :=
  ((reference_replacement_lifecycle noteC3 "b" false 0 stC3 rfl (by decide)).2
    rfl ⟨["q"], []⟩ "generated text" rfl rfl).1 rfl

/-- Writes happen only on the two 200-paths of the fresh pipeline, and only
when the generation stage succeeded. -/
theorem freshPipeline_writes_shape (noteId body ch : String) (st : StageOutcomes) :
    (freshPipeline noteId body ch st).writes ≠ [] →
      ((freshPipeline noteId body ch st).out).isOk = true
      ∧ ∃ g, st.generate = .ok g := by
  intro hw
  cases hbq : st.buildQ with
  | error e => simp [freshPipeline, hbq] at hw
  | ok bq =>
    cases hse : st.search with
    | error e => simp [freshPipeline, hbq, hse] at hw
    | ok rs =>
      by_cases hlen : rs.length = 0
      · cases hg : st.generate with
        | error e => simp [freshPipeline, hbq, hse, hlen, hg] at hw
        | ok c =>
          refine ⟨?_, ⟨c, rfl⟩⟩
          simp [freshPipeline, hbq, hse, hlen, hg, RouteOut.isOk]
      · cases hrk : st.rerank with
        | error e => simp [freshPipeline, hbq, hse, hlen, hrk] at hw
        | ok rk =>
          by_cases hnone : ((selectSources rs rk).any fun o => o.isNone) = true
          · simp [freshPipeline, hbq, hse, hlen, hrk, hnone] at hw
          · cases hg : st.generate with
            | error e =>
                simp [freshPipeline, hbq, hse, hlen, hrk,
                  Bool.eq_false_iff.mpr hnone, hg] at hw
            | ok c =>
              refine ⟨?_, ⟨c, rfl⟩⟩
              simp [freshPipeline, hbq, hse, hlen, hrk,
                Bool.eq_false_iff.mpr hnone, hg, RouteOut.isOk]

/-- C5: if the request does not succeed, no database write is performed —
the stored elaboration blob and the Reference rows are exactly as before —
and writes can only ever happen on a 200 response whose generation stage
succeeded (persistence runs strictly after generation). -/
theorem elaborate_failure_persists_nothing (note? : Option NoteRow) (force : Bool)
    (now : Int) (st : StageOutcomes) :
    ((elaborateRoute note? force now st).writes ≠ [] →
      ((elaborateRoute note? force now st).out).isOk = true
      ∧ ∃ g, st.generate = .ok g)
    ∧ (∀ s m, (elaborateRoute note? force now st).out = .fail s m →
        (elaborateRoute note? force now st).writes = []) := by
  have main : (elaborateRoute note? force now st).writes ≠ [] →
      ((elaborateRoute note? force now st).out).isOk = true
      ∧ ∃ g, st.generate = .ok g := by
    intro hw
    cases note? with
    | none => simp [elaborateRoute] at hw
    | some note =>
      cases hb : note.bodyMd with
      | none => simp [elaborateRoute, hb] at hw
      | some body =>
        by_cases htrim : jsTrim body = ""
        · simp [elaborateRoute, hb, htrim] at hw
        · cases hch : cacheHitOf note body force now with
          | some r => simp [elaborateRoute, hb, htrim, hch] at hw
          | none =>
            have he : elaborateRoute (some note) force now st =
                freshPipeline note.id body (generateHashStr body) st := by
              simp [elaborateRoute, hb, htrim, hch]
            rw [he] at hw ⊢
            exact freshPipeline_writes_shape _ _ _ _ hw
  refine ⟨main, ?_⟩
  intro s m hout
  by_contra hne
  obtain ⟨hok, -⟩ := main hne
  rw [hout] at hok
  simp [RouteOut.isOk] at hok

/-- Witness for C5: a concrete mid-pipeline failure performs no writes. -/
theorem elaborate_failure_persists_nothing_witness :
    (elaborateRoute (some noteC5) false 0 stC5).writes = [] :=
  (elaborate_failure_persists_nothing (some noteC5) false 0 stC5).2 500
    "Serper API network error: No response received" (by decide)
